import Mathlib

/-!
Verification of `langchain_google_vertexai/model_garden_maas/_base.py`:
model-family resolution, request building (URL + payload), and the
dispatch/retry/streaming-decode logic, shallowly embedded in Lean.
-/

set_option maxHeartbeats 1000000

namespace MaasBase

/-- The protocol families of `VertexMaaSModelFamily` (the `str`-Enum in the
source, values elided: only the tags matter to the logic). -/
inductive VertexMaaSModelFamily where
  | LLAMA
  | MISTRAL
deriving DecidableEq

/-- Python `value.lower()`: lower-case character by character (all the
identifiers involved are ASCII). -/
def pyLower (s : String) : String := String.mk (s.data.map Char.toLower)

/-- Decidable equality on `Except`, so that concrete resolver results can be
evaluated. -/
instance {e a : Type} [DecidableEq e] [DecidableEq a] :
    DecidableEq (Except e a)
  | Except.ok x, Except.ok y => decidable_of_iff (x = y) (by simp)
  | Except.ok _, Except.error _ => Decidable.isFalse (by simp)
  | Except.error _, Except.ok _ => Decidable.isFalse (by simp)
  | Except.error x, Except.error y => decidable_of_iff (x = y) (by simp)

/-- The Llama allow-list (`llama_models` set literal in `_missing_`). -/
def llama_models : List String := ["meta/llama3-405b-instruct-maas"]

/-- The Mistral allow-list (`mistral_models` set literal in `_missing_`). -/
def mistral_models : List String := ["mistral-nemo@2407", "mistral-large@2407"]

/-- Resolver `VertexMaaSModelFamily._missing_`: lower-case the identifier, test exact
membership in the two allow-lists, raise `ValueError` otherwise.  The raised
message is the f-string `"Model {model_name} is not supported yet!"`. -/
def VertexMaaSModelFamily._missing_ (value : String) :
    Except String VertexMaaSModelFamily :=
  let model_name := pyLower value
  if llama_models.contains model_name then
    Except.ok VertexMaaSModelFamily.LLAMA
  else if mistral_models.contains model_name then
    Except.ok VertexMaaSModelFamily.MISTRAL
  else
    Except.error ("Model " ++ model_name ++ " is not supported yet!")

/-- Values occurring in a request-parameter mapping (a Python `dict`):
strings, booleans and numbers are all the claims need to distinguish. -/
inductive Val where
  | str (s : String)
  | bool (b : Bool)
  | num (n : Int)
deriving DecidableEq

/-- Python truthiness (`if stream:`) restricted to `Val`. -/
def Val.truthy : Val → Bool
  | Val.str s => !(s == "")
  | Val.bool b => b
  | Val.num n => !(n == 0)

/-- A Python `dict` with string keys, as an association list (keys unique in
any dict built by the code, lookup finds the first binding). -/
abbrev Dict := List (String × Val)

/-- Lookup `d[k]` as an option (`none` models `k not in d`). -/
def dictLookup : Dict → String → Option Val
  | [], _ => none
  | (k, v) :: rest, key => if k = key then some v else dictLookup rest key

/-- Effect of `d.pop(k, None)` on the dict: the binding of `k` is removed
(all occurrences, which on a unique-key dict is the single one). -/
def dictPop : Dict → String → Dict
  | [], _ => []
  | (k, v) :: rest, key =>
    if k = key then dictPop rest key else (k, v) :: dictPop rest key

/-- Assignment `d[k] = v`: replace the binding of `k` in place, or append it. -/
def dictSet : Dict → String → Val → Dict
  | [], key, v => [(key, v)]
  | (k, v0) :: rest, key, v =>
    if k = key then (key, v) :: rest else (k, v0) :: dictSet rest key v

theorem dictLookup_set_self (d : Dict) (k : String) (v : Val) :
    dictLookup (dictSet d k v) k = some v := by
  induction d with
  | nil => simp [dictSet, dictLookup]
  | cons hd tl ih =>
    by_cases h : hd.1 = k
    · simp [dictSet, dictLookup, h]
    · simp [dictSet, dictLookup, h, ih]

theorem dictLookup_set_ne (d : Dict) (k key : String) (v : Val)
    (h : k ≠ key) : dictLookup (dictSet d k v) key = dictLookup d key := by
  induction d with
  | nil => simp [dictSet, dictLookup, h]
  | cons hd tl ih =>
    by_cases h1 : hd.1 = k
    · simp [dictSet, dictLookup, h1, h]
    · simp [dictSet, dictLookup, h1, ih]

theorem dictLookup_pop_self (d : Dict) (k : String) :
    dictLookup (dictPop d k) k = none := by
  induction d with
  | nil => simp [dictPop, dictLookup]
  | cons hd tl ih =>
    by_cases h : hd.1 = k
    · simp [dictPop, h, ih]
    · simp [dictPop, dictLookup, h, ih]

theorem dictLookup_pop_ne (d : Dict) (k key : String) (h : k ≠ key) :
    dictLookup (dictPop d k) key = dictLookup d key := by
  induction d with
  | nil => simp [dictPop]
  | cons hd tl ih =>
    by_cases h1 : hd.1 = k
    · simp [dictPop, dictLookup, h1, h, ih]
    · simp [dictPop, dictLookup, h1, ih]

/-- The configuration fields of `_BaseVertexMaasModelGarden` that the module
reads or writes.  `model_name`, `full_model_name`, `location` (the region),
`project` and `max_retries` are inherited from `_VertexAIBase`; that base
class is not part of this module, so those fields are modelled from the
spec's "Model configuration" contract (supplies `modelName`, `region`,
`project`, `maxRetries`, plus the resolver-written `fullName`).
`model_family` is declared in this module with default `None`. -/
structure _BaseVertexMaasModelGarden where
  model_name : String
  full_model_name : Option String := none
  model_family : Option VertexMaaSModelFamily := none
  location : String
  project : String
  max_retries : Nat
deriving DecidableEq

/-- Python `s.split("@")[0]`: the prefix of `s` strictly before its first
`@`, or all of `s` when it has none. -/
def splitAtHead (s : String) : String :=
  String.mk (s.data.takeWhile (fun c => c ≠ '@'))

/-- Validator `validate_environment_model_garden` (a pre root validator, run once at
configuration construction): resolve the family from `model_name` (via
`VertexMaaSModelFamily._missing_`), store it in `model_family`; for Mistral
additionally store the original name in `full_model_name` and truncate
`model_name` to `model_name.split("@")[0]`. -/
def validate_environment_model_garden (g : _BaseVertexMaasModelGarden) :
    Except String _BaseVertexMaasModelGarden :=
  match VertexMaaSModelFamily._missing_ g.model_name with
  | Except.error e => Except.error e
  | Except.ok family =>
    let g1 := { g with model_family := some family }
    if family = VertexMaaSModelFamily.MISTRAL then
      Except.ok { g1 with
        full_model_name := some g1.model_name,
        model_name := splitAtHead g1.model_name }
    else
      Except.ok g1

/-- Rendering of `Optional[str]` inside a Python f-string (`None` prints as
the text `"None"`). -/
def opt_str : Option String → String
  | some s => s
  | none => "None"

/-- Method `_BaseVertexMaasModelGarden._get_url_part`: the family- and
stream-dependent URL path suffix. -/
def _get_url_part (g : _BaseVertexMaasModelGarden) (stream : Bool) : String :=
  if g.model_family = some VertexMaaSModelFamily.MISTRAL then
    if stream then
      "publishers/mistralai/models/" ++ opt_str g.full_model_name ++
        ":streamRawPredict"
    else
      "publishers/mistralai/models/" ++ opt_str g.full_model_name ++
        ":rawPredict"
  else
    "openapi/chat/completions"

/-- Method `_BaseVertexMaasModelGarden.get_url`: the base URL, with API version
`v1beta1` for the Llama family and `v1` otherwise. -/
def get_url (g : _BaseVertexMaasModelGarden) : String :=
  let version :=
    if g.model_family = some VertexMaaSModelFamily.LLAMA then "v1beta1"
    else "v1"
  "https://" ++ g.location ++ "-aiplatform.googleapis.com/" ++ version ++
    "/projects/" ++ g.project ++ "/locations/" ++ g.location

/-- Method `_BaseVertexMaasModelGarden._enrich_params` as a value-level function:
deep-copy the params (a no-op on immutable values; `_enrich_params_heap`
below models the aliasing behaviour of the copy), pop `"safe_prompt"`, and
overwrite `"model"` with the stored (canonical) `model_name`. -/
def _enrich_params (g : _BaseVertexMaasModelGarden) (params : Dict) : Dict :=
  dictSet (dictPop params "safe_prompt") "model" (Val.str g.model_name)

/-- A store of Python dict objects: addresses are allocation order. -/
structure Heap where
  mem : Nat → Dict
  next : Nat

/-- Dereference an address. -/
def Heap.get (h : Heap) (a : Nat) : Dict := h.mem a

/-- Mutate the dict object at address `a`. -/
def Heap.write (h : Heap) (a : Nat) (d : Dict) : Heap :=
  { mem := fun x => if x = a then d else h.mem x, next := h.next }

/-- Allocate a fresh dict object holding `d`. -/
def Heap.alloc (h : Heap) (d : Dict) : Heap × Nat :=
  ({ mem := fun x => if x = h.next then d else h.mem x, next := h.next + 1 },
   h.next)

/-- Version of `_enrich_params` with dict objects held in an explicit store, so that the
mutation behaviour is visible: `copy_params = copy.deepcopy(params)`
allocates a fresh object holding a copy of the caller's contents, and the
`pop` and the `model` assignment mutate only that fresh object.  Returns the
store after the call and the address of the returned dict. -/
def _enrich_params_heap (g : _BaseVertexMaasModelGarden) (h : Heap)
    (params : Nat) : Heap × Nat :=
  let allocated := h.alloc (h.get params)
  let h1 := allocated.1
  let b := allocated.2
  let h2 := h1.write b (dictPop (h1.get b) "safe_prompt")
  let h3 := h2.write b (dictSet (h2.get b) "model" (Val.str g.model_name))
  (h3, b)

/-- An `httpx.Response` as this module reads it: status code, request URL,
and the body text (`response.read().decode("utf-8")`). -/
structure Response where
  status_code : Nat
  url : String
  body : String
deriving DecidableEq

/-- Predicate `httpx.codes.is_error`: a 4xx or 5xx status code. -/
def is_error_code (code : Nat) : Bool :=
  decide (400 ≤ code) && decide (code ≤ 599)

/-- An `httpx.HTTPStatusError` as `_raise_on_error` constructs it: the
formatted message, plus the response it carries (`response=response`). -/
structure HTTPStatusError where
  message : String
  response : Response
deriving DecidableEq

/-- The error `_raise_on_error` builds for an error-status response. -/
def status_error_of (r : Response) : HTTPStatusError :=
  { message := "Error response " ++ toString r.status_code ++
      " while fetching " ++ r.url ++ ": " ++ r.body,
    response := r }

/-- Function `_raise_on_error`: raise `httpx.HTTPStatusError` when the status code is
an error, carrying code, URL and full body text in the message. -/
def _raise_on_error (r : Response) : Except HTTPStatusError Unit :=
  if is_error_code r.status_code then Except.error (status_error_of r)
  else Except.ok ()

/-- Function `_araise_on_error`: the async twin of `_raise_on_error`; identical
except that the body is read with `aread`. -/
def _araise_on_error (r : Response) : Except HTTPStatusError Unit :=
  if is_error_code r.status_code then Except.error (status_error_of r)
  else Except.ok ()

/-- One server-sent event as the module sees it: its raw `data` payload. -/
structure SSEvent where
  data : String
deriving DecidableEq

/-- The event loop shared verbatim by `_aiter_sse` and by
`completion_with_retry.iter_sse`: for each event in order, stop (returning
nothing further) at the first event whose raw data is `"[DONE]"`, otherwise
yield `event.json()` — modelled by a caller-supplied `decode`. -/
def sse_events_loop (decode : String → Val) : List SSEvent → List Val
  | [] => []
  | e :: rest =>
    if e.data = "[DONE]" then []
    else decode e.data :: sse_events_loop decode rest

/-- Function `_aiter_sse`: check the initial response with `_araise_on_error` before
any event is consumed, then run the event loop over the event stream. -/
def _aiter_sse (decode : String → Val) (resp : Response)
    (events : List SSEvent) : Except HTTPStatusError (List Val) :=
  match _araise_on_error resp with
  | Except.error e => Except.error e
  | Except.ok _ => Except.ok (sse_events_loop decode events)

/-- Generator `completion_with_retry.iter_sse` (the sync path): check the initial
response with `_raise_on_error`, then run the same event loop. -/
def iter_sse (decode : String → Val) (resp : Response)
    (events : List SSEvent) : Except HTTPStatusError (List Val) :=
  match _raise_on_error resp with
  | Except.error e => Except.error e
  | Except.ok _ => Except.ok (sse_events_loop decode events)

/-- The payload/URL prelude shared by `completion_with_retry` (lines
194-197, 205, 216) and `acompletion_with_retry` (lines 172-174, 179, 185,
189): default `kwargs["stream"]` to `False` when absent, read the stream
flag (Python truthiness), enrich the params, and select the URL part with
that flag.  Returns (stream flag, URL part, transmitted payload). -/
def completion_request (g : _BaseVertexMaasModelGarden) (kwargs : Dict) :
    Bool × String × Dict :=
  let kwargs1 :=
    if (dictLookup kwargs "stream").isNone then
      dictSet kwargs "stream" (Val.bool false)
    else kwargs
  let stream := Val.truthy ((dictLookup kwargs1 "stream").getD (Val.bool false))
  let payload := _enrich_params g kwargs1
  (stream, _get_url_part g stream, payload)

/-- What the transport does on one attempt of the non-streaming POST:
fail at transport level while connecting/sending (`httpx.RequestError`),
fail with malformed stream framing (`httpx.StreamError`), or deliver a
response. -/
inductive TransportResult where
  | conn_error
  | framing_error
  | response (r : Response)
deriving DecidableEq

/-- The exceptions a single attempt can surface: the two transport error
types and `httpx.HTTPStatusError` (which is neither an `httpx.RequestError`
nor an `httpx.StreamError`). -/
inductive CallError where
  | request
  | stream
  | status (e : HTTPStatusError)
deriving DecidableEq

/-- The retryable error set `_create_retry_decorator` passes to
`create_base_retry_decorator`: `[httpx.RequestError, httpx.StreamError]`.
An `HTTPStatusError` matches neither. -/
def retryable_error : CallError → Bool
  | CallError.request => true
  | CallError.stream => true
  | CallError.status _ => false

/-- One attempt of the non-streaming body of `_completion_with_retry`:
POST, then `_araise_on_error(response)`, then `response.json()` (modelled by
`decode` on the body text). -/
def post_attempt (decode : String → Val) (t : TransportResult) :
    Except CallError Val :=
  match t with
  | TransportResult.conn_error => Except.error CallError.request
  | TransportResult.framing_error => Except.error CallError.stream
  | TransportResult.response r =>
    match _araise_on_error r with
    | Except.error e => Except.error (CallError.status e)
    | Except.ok _ => Except.ok (decode r.body)

/-- Modelled from the spec: `create_base_retry_decorator` from
`langchain_core` (not part of this repository) "accepts a set of retryable
error kinds and a maximum attempt count; wraps a callable and re-invokes it
on matching failures up to the limit, then re-raises the last failure".
`retry_run retryable attempt i fuel` performs attempt `i` and up to `fuel`
further attempts on retryable failures. -/
def retry_run {α : Type} (retryable : CallError → Bool)
    (attempt : Nat → Except CallError α) : Nat → Nat → Except CallError α
  | i, 0 => attempt i
  | i, fuel + 1 =>
    match attempt i with
    | Except.ok a => Except.ok a
    | Except.error e =>
      if retryable e then retry_run retryable attempt (i + 1) fuel
      else Except.error e

/-- Modelled from the spec: the retry decorator applied with a maximum of
`max_retries` total attempts (the model's configured attempt count). -/
def retry_call {α : Type} (retryable : CallError → Bool) (max_retries : Nat)
    (attempt : Nat → Except CallError α) : Except CallError α :=
  retry_run retryable attempt 0 (max_retries - 1)

/-- The dispatch/retry skeleton of `acompletion_with_retry` on the
non-streaming path: the decorated `_completion_with_retry` (POST, raise on
error status, decode) is re-invoked by the retry decorator built by
`_create_retry_decorator`, with the model's `max_retries`.  The transport is
abstracted as an oracle from attempt index to outcome; the payload/URL
construction is modelled separately by `completion_request`. -/
def acompletion_with_retry (g : _BaseVertexMaasModelGarden)
    (decode : String → Val) (transport : Nat → TransportResult) :
    Except CallError Val :=
  retry_call retryable_error g.max_retries
    (fun i => post_attempt decode (transport i))

/-- One opening and consumption of the SSE connection — what iterating the
returned `_aiter_sse(aconnect_sse(...))` generator performs: a transport
failure while opening the connection is surfaced as-is, an error status on
the initial response raises, otherwise the sentinel event loop runs over
the delivered events. -/
def stream_attempt (decode : String → Val) (events : List SSEvent)
    (t : TransportResult) : Except CallError (List Val) :=
  match t with
  | TransportResult.conn_error => Except.error CallError.request
  | TransportResult.framing_error => Except.error CallError.stream
  | TransportResult.response r =>
    match _araise_on_error r with
    | Except.error e => Except.error (CallError.status e)
    | Except.ok _ => Except.ok (sse_events_loop decode events)

/-- The dispatch/retry skeleton of `acompletion_with_retry` on the streaming
path.  The decorated `_completion_with_retry` only constructs
`aconnect_sse(...)` (an async context manager — no I/O happens) and returns
the async generator `_aiter_sse(event_source)` without iterating it, so each
decorated attempt succeeds immediately with a lazy stream value; the
connection is opened later, at the first iteration of the stream the
decorator returned, outside the retry loop.  The caller observes the result
of consuming that stream. -/
def acompletion_with_retry_streaming (g : _BaseVertexMaasModelGarden)
    (decode : String → Val) (events : List SSEvent)
    (transport : Nat → TransportResult) : Except CallError (List Val) :=
  match retry_call retryable_error g.max_retries
      (fun i => Except.ok
        (fun _ : Unit => stream_attempt decode events (transport i))) with
  | Except.error e => Except.error e
  | Except.ok lazy_stream => lazy_stream ()

/-- The dispatch skeleton of the sync `completion_with_retry` on the
non-streaming path, as the source writes it: a single POST / raise / decode
with no retry decorator applied (only the first transport outcome is ever
consulted). -/
def completion_with_retry (_g : _BaseVertexMaasModelGarden)
    (decode : String → Val) (transport : Nat → TransportResult) :
    Except CallError Val :=
  post_attempt decode (transport 0)

/-! ## Theorems -/

/-- Re-association helper: merging the API-version literal into the base-URL
literal around it. -/
theorem url_version_merge (l p ver D : String)
    (h : ("-aiplatform.googleapis.com/" ++ ver) ++ "/projects/" = D) :
    "https://" ++ l ++ "-aiplatform.googleapis.com/" ++ ver ++ "/projects/" ++
      p ++ "/locations/" ++ l =
    "https://" ++ l ++ D ++ p ++ "/locations/" ++ l := by
  rw [String.append_assoc ("https://" ++ l) "-aiplatform.googleapis.com/" ver,
      String.append_assoc ("https://" ++ l)
        ("-aiplatform.googleapis.com/" ++ ver) "/projects/", h]

/-- C1: family resolution returns the Llama family exactly for strings whose
lower-cased form is `"meta/llama3-405b-instruct-maas"`, the Mistral family
exactly for strings whose lower-cased form is `"mistral-nemo@2407"` or
`"mistral-large@2407"`, and fails with the unsupported-model error for every
other string — exact case-insensitive equality, no prefix or pattern
matching. -/
theorem family_resolution_exact_allowlist (s : String) :
    (VertexMaaSModelFamily._missing_ s = Except.ok VertexMaaSModelFamily.LLAMA
      ↔ pyLower s = "meta/llama3-405b-instruct-maas")
    ∧ (VertexMaaSModelFamily._missing_ s =
        Except.ok VertexMaaSModelFamily.MISTRAL
      ↔ (pyLower s = "mistral-nemo@2407" ∨ pyLower s = "mistral-large@2407"))
    ∧ (VertexMaaSModelFamily._missing_ s =
        Except.error ("Model " ++ pyLower s ++ " is not supported yet!")
      ↔ (pyLower s ≠ "meta/llama3-405b-instruct-maas" ∧
         pyLower s ≠ "mistral-nemo@2407" ∧
         pyLower s ≠ "mistral-large@2407")) := by
  by_cases h1 : pyLower s = "meta/llama3-405b-instruct-maas" <;>
    by_cases h2 : pyLower s = "mistral-nemo@2407" <;>
      by_cases h3 : pyLower s = "mistral-large@2407" <;>
        simp_all [VertexMaaSModelFamily._missing_, llama_models,
          mistral_models, List.contains_cons]

/-- C4: the streaming event loop yields the decoded payloads, in order, of
exactly the events before the first `"[DONE]"` sentinel; at the sentinel it
terminates without decoding it or anything after it. -/
theorem sse_stream_stops_at_sentinel (decode : String → Val) :
    (∀ events : List SSEvent,
      sse_events_loop decode events =
        (events.takeWhile (fun e => e.data ≠ "[DONE]")).map
          (fun e => decode e.data))
    ∧ (∀ pre rest : List SSEvent, (∀ e ∈ pre, e.data ≠ "[DONE]") →
      sse_events_loop decode (pre ++ { data := "[DONE]" } :: rest) =
        pre.map (fun e => decode e.data)) := by
  constructor
  · intro events
    induction events with
    | nil => simp [sse_events_loop]
    | cons e rest ih =>
      by_cases h : e.data = "[DONE]"
      · simp [sse_events_loop, h]
      · simp [sse_events_loop, h, ih]
  · intro pre rest hpre
    induction pre with
    | nil => simp [sse_events_loop]
    | cons e pre1 ih =>
      have he : e.data ≠ "[DONE]" := hpre e (by simp)
      have hrest : ∀ e1 ∈ pre1, e1.data ≠ "[DONE]" := by
        intro e1 h1
        exact hpre e1 (by simp [h1])
      simp [sse_events_loop, he, ih hrest]

/-- C4 witness: the spec's mock stream — events `a`, `b`, `[DONE]`, `c`
yield exactly the two decoded records before the sentinel. -/
theorem sse_stream_stops_at_sentinel_example :
    sse_events_loop Val.str
      [{ data := "a" }, { data := "b" }, { data := "[DONE]" },
       { data := "c" }] = [Val.str "a", Val.str "b"] := by
  have h := (sse_stream_stops_at_sentinel Val.str).2
    [{ data := "a" }, { data := "b" }] [{ data := "c" }] (by decide)
  simpa using h

/-- C5: every error-status response raises an `HTTPStatusError` whose
message carries the status code, the URL and the full body text verbatim and
which carries the response itself; in both streaming paths this check is
applied to the initial response before any event is consumed (the result is
the same error for every event stream, so no event is read or decoded). -/
theorem http_error_carries_status_url_body (r : Response)
    (h : is_error_code r.status_code = true) :
    _raise_on_error r = Except.error (status_error_of r)
    ∧ _araise_on_error r = Except.error (status_error_of r)
    ∧ (status_error_of r).message = "Error response " ++
        toString r.status_code ++ " while fetching " ++ r.url ++ ": " ++ r.body
    ∧ (status_error_of r).response = r
    ∧ (∀ decode events, iter_sse decode r events =
        Except.error (status_error_of r))
    ∧ (∀ decode events, _aiter_sse decode r events =
        Except.error (status_error_of r)) := by
  refine ⟨?_, ?_, rfl, rfl, ?_, ?_⟩
  · simp [_raise_on_error, h]
  · simp [_araise_on_error, h]
  · intro decode events
    simp [iter_sse, _raise_on_error, h]
  · intro decode events
    simp [_aiter_sse, _araise_on_error, h]

/-- C5 witness: a 500 response with a concrete URL and body, in the sync,
async and streaming paths. -/
theorem http_error_carries_status_url_body_at_500 :
    _raise_on_error { status_code := 500, url := "https://u", body := "boom" }
      = Except.error (status_error_of
          { status_code := 500, url := "https://u", body := "boom" })
    ∧ (status_error_of
        { status_code := 500, url := "https://u", body := "boom" }).message =
        "Error response 500 while fetching https://u: boom"
    ∧ iter_sse Val.str
        { status_code := 500, url := "https://u", body := "boom" }
        [{ data := "a" }] = Except.error (status_error_of
          { status_code := 500, url := "https://u", body := "boom" }) := by
  have h := http_error_carries_status_url_body
    { status_code := 500, url := "https://u", body := "boom" } (by decide)
  exact ⟨h.1, by decide, h.2.2.2.2.1 Val.str [{ data := "a" }]⟩

/-- C6: construction-time resolution — when family resolution of the
requested name yields Mistral, the validator stores the family, sets
`full_model_name` to the requested name unchanged and `model_name` to the
requested name truncated before its first `@`; when it yields Llama, the
model name is kept as requested and `full_model_name` is left unset. -/
theorem construction_resolves_and_splits_name
    (g : _BaseVertexMaasModelGarden) :
    (VertexMaaSModelFamily._missing_ g.model_name =
        Except.ok VertexMaaSModelFamily.MISTRAL →
      validate_environment_model_garden g = Except.ok { g with
        model_family := some VertexMaaSModelFamily.MISTRAL,
        full_model_name := some g.model_name,
        model_name := splitAtHead g.model_name })
    ∧ (VertexMaaSModelFamily._missing_ g.model_name =
        Except.ok VertexMaaSModelFamily.LLAMA →
      validate_environment_model_garden g = Except.ok { g with
        model_family := some VertexMaaSModelFamily.LLAMA }) := by
  constructor
  · intro h
    simp [validate_environment_model_garden, h]
  · intro h
    simp [validate_environment_model_garden, h]

/-- C6 witness: `"mistral-large@2407"` resolves to Mistral with canonical
name `"mistral-large"` and full name `"mistral-large@2407"`; the Llama
identifier is kept unchanged with no full name set. -/
theorem construction_resolves_and_splits_name_examples :
    validate_environment_model_garden
      { model_name := "mistral-large@2407", location := "us-central1",
        project := "p", max_retries := 3 } = Except.ok
      { model_name := "mistral-large",
        full_model_name := some "mistral-large@2407",
        model_family := some VertexMaaSModelFamily.MISTRAL,
        location := "us-central1", project := "p", max_retries := 3 }
    ∧ validate_environment_model_garden
      { model_name := "meta/llama3-405b-instruct-maas",
        location := "us-central1", project := "p", max_retries := 3 } =
      Except.ok
      { model_name := "meta/llama3-405b-instruct-maas",
        full_model_name := none,
        model_family := some VertexMaaSModelFamily.LLAMA,
        location := "us-central1", project := "p", max_retries := 3 } := by
  constructor
  · have h := (construction_resolves_and_splits_name
      { model_name := "mistral-large@2407", location := "us-central1",
        project := "p", max_retries := 3 }).1 (by decide)
    rw [h]
    decide
  · have h := (construction_resolves_and_splits_name
      { model_name := "meta/llama3-405b-instruct-maas",
        location := "us-central1", project := "p", max_retries := 3 }).2
      (by decide)
    rw [h]

/-- C7: the base URL is
`https://{region}-aiplatform.googleapis.com/{version}/projects/{project}/locations/{region}`
with version `v1beta1` for Llama and `v1` otherwise, and the URL path is the
Mistral `streamRawPredict`/`rawPredict` pair keyed on the stream flag for
Mistral, and `openapi/chat/completions` for Llama regardless of the flag. -/
theorem url_construction_by_family (g : _BaseVertexMaasModelGarden)
    (f : String) :
    (g.model_family = some VertexMaaSModelFamily.MISTRAL →
      g.full_model_name = some f →
      _get_url_part g true =
        "publishers/mistralai/models/" ++ f ++ ":streamRawPredict"
      ∧ _get_url_part g false =
        "publishers/mistralai/models/" ++ f ++ ":rawPredict"
      ∧ get_url g = "https://" ++ g.location ++
          "-aiplatform.googleapis.com/v1/projects/" ++ g.project ++
          "/locations/" ++ g.location)
    ∧ (g.model_family = some VertexMaaSModelFamily.LLAMA →
      (∀ stream : Bool, _get_url_part g stream = "openapi/chat/completions")
      ∧ get_url g = "https://" ++ g.location ++
          "-aiplatform.googleapis.com/v1beta1/projects/" ++ g.project ++
          "/locations/" ++ g.location) := by
  constructor
  · intro hfam hfull
    have h1 := url_version_merge g.location g.project "v1"
      "-aiplatform.googleapis.com/v1/projects/" (by decide)
    refine ⟨?_, ?_, ?_⟩
    · simp [_get_url_part, hfam, hfull, opt_str]
    · simp [_get_url_part, hfam, hfull, opt_str]
    · simp [get_url, hfam]
      exact h1
  · intro hfam
    have h1 := url_version_merge g.location g.project "v1beta1"
      "-aiplatform.googleapis.com/v1beta1/projects/" (by decide)
    constructor
    · intro stream
      simp [_get_url_part, hfam]
    · simp [get_url, hfam]
      exact h1

/-- C7 witness: concrete Mistral and Llama configurations. -/
theorem url_construction_by_family_examples :
    _get_url_part
      { model_name := "mistral-large",
        full_model_name := some "mistral-large@2407",
        model_family := some VertexMaaSModelFamily.MISTRAL,
        location := "us-central1", project := "p", max_retries := 3 } true =
      "publishers/mistralai/models/mistral-large@2407:streamRawPredict"
    ∧ _get_url_part
      { model_name := "mistral-large",
        full_model_name := some "mistral-large@2407",
        model_family := some VertexMaaSModelFamily.MISTRAL,
        location := "us-central1", project := "p", max_retries := 3 } false =
      "publishers/mistralai/models/mistral-large@2407:rawPredict"
    ∧ get_url
      { model_name := "meta/llama3-405b-instruct-maas",
        full_model_name := none,
        model_family := some VertexMaaSModelFamily.LLAMA,
        location := "us-central1", project := "p", max_retries := 3 } =
      "https://us-central1-aiplatform.googleapis.com/v1beta1/projects/p/locations/us-central1" := by
  have hm := (url_construction_by_family
    { model_name := "mistral-large",
      full_model_name := some "mistral-large@2407",
      model_family := some VertexMaaSModelFamily.MISTRAL,
      location := "us-central1", project := "p", max_retries := 3 }
    "mistral-large@2407").1 rfl rfl
  have hl := (url_construction_by_family
    { model_name := "meta/llama3-405b-instruct-maas",
      full_model_name := none,
      model_family := some VertexMaaSModelFamily.LLAMA,
      location := "us-central1", project := "p", max_retries := 3 }
    "mistral-large@2407").2 rfl
  exact ⟨hm.1, hm.2.1, hl.2⟩

/-- C10: for every `model_family` value other than the Mistral tag
(including the unset default `none`), `_get_url_part` returns
`openapi/chat/completions` for both stream flags, and for every value other
than the Llama tag `get_url` uses API version `v1`. -/
theorem default_family_generic_url (g : _BaseVertexMaasModelGarden) :
    (g.model_family ≠ some VertexMaaSModelFamily.MISTRAL →
      ∀ stream : Bool, _get_url_part g stream = "openapi/chat/completions")
    ∧ (g.model_family ≠ some VertexMaaSModelFamily.LLAMA →
      get_url g = "https://" ++ g.location ++
        "-aiplatform.googleapis.com/v1/projects/" ++ g.project ++
        "/locations/" ++ g.location) := by
  constructor
  · intro h stream
    simp [_get_url_part, h]
  · intro h
    have h1 := url_version_merge g.location g.project "v1"
      "-aiplatform.googleapis.com/v1/projects/" (by decide)
    simp [get_url, h]
    exact h1

/-- C10 witness: a configuration with the unset default `model_family =
none` takes the generic URL path and the `v1` version. -/
theorem default_family_generic_url_at_none :
    _get_url_part
      { model_name := "m", full_model_name := none, model_family := none,
        location := "us-central1", project := "p", max_retries := 3 } true =
      "openapi/chat/completions"
    ∧ _get_url_part
      { model_name := "m", full_model_name := none, model_family := none,
        location := "us-central1", project := "p", max_retries := 3 } false =
      "openapi/chat/completions"
    ∧ get_url
      { model_name := "m", full_model_name := none, model_family := none,
        location := "us-central1", project := "p", max_retries := 3 } =
      "https://us-central1-aiplatform.googleapis.com/v1/projects/p/locations/us-central1" := by
  have h := default_family_generic_url
    { model_name := "m", full_model_name := none, model_family := none,
      location := "us-central1", project := "p", max_retries := 3 }
  exact ⟨h.1 (by decide) true, h.1 (by decide) false, h.2 (by decide)⟩

/-- C8: for every caller-supplied parameter mapping, the transmitted payload
has no `"safe_prompt"` key, its `"model"` key equals the canonical model
name (overwriting any caller-supplied value), and when the caller did not
specify `"stream"` the payload carries `"stream" = false` and that same
value selects the non-streaming URL part. -/
theorem payload_normalization (g : _BaseVertexMaasModelGarden)
    (kwargs : Dict) :
    dictLookup (completion_request g kwargs).2.2 "safe_prompt" = none
    ∧ dictLookup (completion_request g kwargs).2.2 "model" =
        some (Val.str g.model_name)
    ∧ (dictLookup kwargs "stream" = none →
        dictLookup (completion_request g kwargs).2.2 "stream" =
          some (Val.bool false)
        ∧ (completion_request g kwargs).1 = false
        ∧ (completion_request g kwargs).2.1 = _get_url_part g false) := by
  refine ⟨?_, ?_, ?_⟩
  · show dictLookup (_enrich_params g _) "safe_prompt" = none
    rw [_enrich_params, dictLookup_set_ne _ _ _ _ (by decide),
      dictLookup_pop_self]
  · show dictLookup (_enrich_params g _) "model" = some (Val.str g.model_name)
    rw [_enrich_params, dictLookup_set_self]
  · intro h
    refine ⟨?_, ?_, ?_⟩
    · show dictLookup (_enrich_params g _) "stream" = some (Val.bool false)
      rw [_enrich_params, dictLookup_set_ne _ _ _ _ (by decide),
        dictLookup_pop_ne _ _ _ (by decide)]
      simp [completion_request, h, dictLookup_set_self]
    · simp [completion_request, h, dictLookup_set_self, Val.truthy]
    · simp [completion_request, h, dictLookup_set_self, Val.truthy]

/-- C8 witness: a caller payload containing both a `"safe_prompt"` key and a
stale `"model"` value and no `"stream"` key is normalized: `safe_prompt`
removed, `model` overwritten, `stream` defaulted to `false`, non-streaming
URL part selected. -/
theorem payload_normalization_example :
    dictLookup (completion_request
      { model_name := "mistral-large",
        full_model_name := some "mistral-large@2407",
        model_family := some VertexMaaSModelFamily.MISTRAL,
        location := "us-central1", project := "p", max_retries := 3 }
      [("safe_prompt", Val.bool true), ("model", Val.str "stale")]).2.2
      "safe_prompt" = none
    ∧ dictLookup (completion_request
      { model_name := "mistral-large",
        full_model_name := some "mistral-large@2407",
        model_family := some VertexMaaSModelFamily.MISTRAL,
        location := "us-central1", project := "p", max_retries := 3 }
      [("safe_prompt", Val.bool true), ("model", Val.str "stale")]).2.2
      "model" = some (Val.str "mistral-large")
    ∧ dictLookup (completion_request
      { model_name := "mistral-large",
        full_model_name := some "mistral-large@2407",
        model_family := some VertexMaaSModelFamily.MISTRAL,
        location := "us-central1", project := "p", max_retries := 3 }
      [("safe_prompt", Val.bool true), ("model", Val.str "stale")]).2.2
      "stream" = some (Val.bool false)
    ∧ (completion_request
      { model_name := "mistral-large",
        full_model_name := some "mistral-large@2407",
        model_family := some VertexMaaSModelFamily.MISTRAL,
        location := "us-central1", project := "p", max_retries := 3 }
      [("safe_prompt", Val.bool true), ("model", Val.str "stale")]).2.1 =
      "publishers/mistralai/models/mistral-large@2407:rawPredict" := by
  have h := payload_normalization
    { model_name := "mistral-large",
      full_model_name := some "mistral-large@2407",
      model_family := some VertexMaaSModelFamily.MISTRAL,
      location := "us-central1", project := "p", max_retries := 3 }
    [("safe_prompt", Val.bool true), ("model", Val.str "stale")]
  have h3 := h.2.2 (by decide)
  refine ⟨h.1, h.2.1, h3.1, ?_⟩
  rw [h3.2.2]
  decide

/-- C9: `_enrich_params` never mutates the caller's parameter dict: running
it in a store where the caller's dict lives at a valid address leaves that
object's contents unchanged, returns a distinct object, and that returned
object holds exactly the enriched copy of the caller's contents. -/
theorem enrich_params_no_caller_mutation (g : _BaseVertexMaasModelGarden)
    (h : Heap) (a : Nat) (ha : a < h.next) :
    (_enrich_params_heap g h a).1.get a = h.get a
    ∧ (_enrich_params_heap g h a).2 ≠ a
    ∧ (_enrich_params_heap g h a).1.get (_enrich_params_heap g h a).2 =
        _enrich_params g (h.get a) := by
  have hne : a ≠ h.next := Nat.ne_of_lt ha
  refine ⟨?_, ?_, ?_⟩
  · simp [_enrich_params_heap, Heap.get, Heap.write, Heap.alloc, hne]
  · show h.next ≠ a
    exact fun hc => hne hc.symm
  · simp [_enrich_params_heap, Heap.get, Heap.write, Heap.alloc,
      _enrich_params]

/-- C9 witness: a store holding one caller dict (with a `"safe_prompt"` key
and a stale `"model"`): after the call the caller's object is unchanged, the
result is a different object, and it holds the enriched copy. -/
theorem enrich_params_no_caller_mutation_example :
    (_enrich_params_heap
      { model_name := "mistral-large",
        full_model_name := some "mistral-large@2407",
        model_family := some VertexMaaSModelFamily.MISTRAL,
        location := "us-central1", project := "p", max_retries := 3 }
      { mem := fun _ => [("safe_prompt", Val.bool true),
          ("model", Val.str "stale")], next := 1 } 0).1.get 0 =
      [("safe_prompt", Val.bool true), ("model", Val.str "stale")]
    ∧ (_enrich_params_heap
      { model_name := "mistral-large",
        full_model_name := some "mistral-large@2407",
        model_family := some VertexMaaSModelFamily.MISTRAL,
        location := "us-central1", project := "p", max_retries := 3 }
      { mem := fun _ => [("safe_prompt", Val.bool true),
          ("model", Val.str "stale")], next := 1 } 0).2 ≠ 0 := by
  have h := enrich_params_no_caller_mutation
    { model_name := "mistral-large",
      full_model_name := some "mistral-large@2407",
      model_family := some VertexMaaSModelFamily.MISTRAL,
      location := "us-central1", project := "p", max_retries := 3 }
    { mem := fun _ => [("safe_prompt", Val.bool true),
        ("model", Val.str "stale")], next := 1 } 0 (by decide)
  exact ⟨h.1, h.2.1⟩

/-- If every attempt from `i` through `i + fuel` fails with `request`,
the retry loop surfaces that failure. -/
theorem retry_run_all_request (attempt : Nat → Except CallError Val) :
    ∀ fuel i, (∀ j, i ≤ j → j ≤ i + fuel →
        attempt j = Except.error CallError.request) →
      retry_run retryable_error attempt i fuel =
        Except.error CallError.request := by
  intro fuel
  induction fuel with
  | zero =>
    intro i h
    have h0 := h i (Nat.le_refl i) (Nat.le_refl i)
    simp [retry_run, h0]
  | succ fuel ih =>
    intro i h
    have h0 := h i (Nat.le_refl i) (by omega)
    have hrest : ∀ j, i + 1 ≤ j → j ≤ (i + 1) + fuel →
        attempt j = Except.error CallError.request := by
      intro j h1 h2
      exact h j (by omega) (by omega)
    simp [retry_run, h0, retryable_error, ih (i + 1) hrest]

/-- If the first `k ≤ fuel` attempts starting at `i` fail with `request` and
attempt `i + k` succeeds, the retry loop returns that success. -/
theorem retry_run_success_at (attempt : Nat → Except CallError Val)
    (a : Val) :
    ∀ k fuel i, k ≤ fuel →
      (∀ j, i ≤ j → j < i + k → attempt j = Except.error CallError.request) →
      attempt (i + k) = Except.ok a →
      retry_run retryable_error attempt i fuel = Except.ok a := by
  intro k
  induction k with
  | zero =>
    intro fuel i _ _ hk
    cases fuel with
    | zero => simpa [retry_run] using hk
    | succ fuel => simp [retry_run, show attempt i = Except.ok a from hk]
  | succ k ih =>
    intro fuel i hle hpre hk
    cases fuel with
    | zero => omega
    | succ fuel =>
      have h0 := hpre i (Nat.le_refl i) (by omega)
      have hrest : ∀ j, i + 1 ≤ j → j < (i + 1) + k →
          attempt j = Except.error CallError.request := by
        intro j h1 h2
        exact hpre j (by omega) (by omega)
      have hk1 : attempt ((i + 1) + k) = Except.ok a := by
        have : (i + 1) + k = i + (k + 1) := by omega
        rw [this]
        exact hk
      simp [retry_run, h0, retryable_error,
        ih fuel (i + 1) (by omega) hrest hk1]

/-- A non-retryable failure on the current attempt is surfaced immediately,
whatever fuel remains. -/
theorem retry_run_nonretryable (attempt : Nat → Except CallError Val)
    (e : CallError) (he : retryable_error e = false) :
    ∀ fuel i, attempt i = Except.error e →
      retry_run retryable_error attempt i fuel = Except.error e := by
  intro fuel i h
  cases fuel with
  | zero => simpa [retry_run] using h
  | succ fuel => simp [retry_run, h, he]

/-- Retry behaviour where the decorator does cover the attempt (the
non-streaming branch of the decorated completion): an HTTP error-status
response is surfaced immediately with no further attempt consulted; a
transport connection failure on every allowed attempt is re-attempted up to
`max_retries` total attempts and then surfaced; and a success on any allowed
attempt (including the last) after transport failures is returned
normally. -/
theorem retry_policy_transport_only (g : _BaseVertexMaasModelGarden)
    (decode : String → Val) (transport : Nat → TransportResult)
    (hmr : 1 ≤ g.max_retries) :
    (∀ r, transport 0 = TransportResult.response r →
      is_error_code r.status_code = true →
      acompletion_with_retry g decode transport =
        Except.error (CallError.status (status_error_of r)))
    ∧ ((∀ i, i < g.max_retries → transport i = TransportResult.conn_error) →
      acompletion_with_retry g decode transport =
        Except.error CallError.request)
    ∧ (∀ k r, k < g.max_retries →
      (∀ i, i < k → transport i = TransportResult.conn_error) →
      transport k = TransportResult.response r →
      is_error_code r.status_code = false →
      acompletion_with_retry g decode transport =
        Except.ok (decode r.body)) := by
  refine ⟨?_, ?_, ?_⟩
  · intro r h0 herr
    have hat : (fun i => post_attempt decode (transport i)) 0 =
        Except.error (CallError.status (status_error_of r)) := by
      simp [post_attempt, h0, _araise_on_error, herr]
    exact retry_run_nonretryable _
      (CallError.status (status_error_of r)) rfl (g.max_retries - 1) 0 hat
  · intro hall
    apply retry_run_all_request
    intro j h1 h2
    have hj : j < g.max_retries := by omega
    simp [post_attempt, hall j hj]
  · intro k r hk hpre hresp hok
    have hat : (fun i => post_attempt decode (transport i)) (0 + k) =
        Except.ok (decode r.body) := by
      simp [post_attempt, hresp, _araise_on_error, hok]
    apply retry_run_success_at _ _ k (g.max_retries - 1) 0 (by omega) _ hat
    intro j _ hj
    simp [post_attempt, hpre j (by omega)]

/-- Concrete cases of `retry_policy_transport_only` with `max_retries = 3`:
a 500 response on the first attempt is surfaced at once; a connection error
on all three attempts surfaces the transport failure; connection errors on
the first two attempts followed by a success on the last allowed attempt
return the decoded body. -/
theorem retry_policy_transport_only_cases :
    acompletion_with_retry
      { model_name := "m", full_model_name := none, model_family := none,
        location := "l", project := "p", max_retries := 3 } Val.str
      (fun _ => TransportResult.response
        { status_code := 500, url := "https://u", body := "boom" }) =
      Except.error (CallError.status (status_error_of
        { status_code := 500, url := "https://u", body := "boom" }))
    ∧ acompletion_with_retry
      { model_name := "m", full_model_name := none, model_family := none,
        location := "l", project := "p", max_retries := 3 } Val.str
      (fun _ => TransportResult.conn_error) =
      Except.error CallError.request
    ∧ acompletion_with_retry
      { model_name := "m", full_model_name := none, model_family := none,
        location := "l", project := "p", max_retries := 3 } Val.str
      (fun i => if i < 2 then TransportResult.conn_error
        else TransportResult.response
          { status_code := 200, url := "https://u", body := "ok" }) =
      Except.ok (Val.str "ok") := by
  refine ⟨?_, ?_, ?_⟩
  · exact (retry_policy_transport_only _ Val.str _ (by decide)).1
      { status_code := 500, url := "https://u", body := "boom" } rfl
      (by decide)
  · exact (retry_policy_transport_only _ Val.str _ (by decide)).2.1
      (fun i _ => rfl)
  · exact (retry_policy_transport_only _ Val.str _ (by decide)).2.2 2
      { status_code := 200, url := "https://u", body := "ok" } (by decide)
      (by decide) (by decide) (by decide)

/-- C3: the claim fails on the code — on the async streaming path the retry
decorator wraps only the construction of the lazy stream, which cannot
fail, so with `max_retries = 3` a transport connection failure while
opening the SSE connection is surfaced with zero re-attempts even though
the next attempt would have delivered a 200 event stream; the same
transport behaviour on the decorator-covered non-streaming path is
re-attempted and succeeds on the second attempt. -/
theorem async_streaming_open_escapes_retry :
    acompletion_with_retry_streaming
      { model_name := "mistral-large",
        full_model_name := some "mistral-large@2407",
        model_family := some VertexMaaSModelFamily.MISTRAL,
        location := "europe-west4", project := "q", max_retries := 3 }
      Val.str [{ data := "chunk" }]
      (fun i => if i = 0 then TransportResult.conn_error
        else TransportResult.response
          { status_code := 200, url := "https://v", body := "chunk" }) =
      Except.error CallError.request
    ∧ acompletion_with_retry
      { model_name := "mistral-large",
        full_model_name := some "mistral-large@2407",
        model_family := some VertexMaaSModelFamily.MISTRAL,
        location := "europe-west4", project := "q", max_retries := 3 }
      Val.str
      (fun i => if i = 0 then TransportResult.conn_error
        else TransportResult.response
          { status_code := 200, url := "https://v", body := "chunk" }) =
      Except.ok (Val.str "chunk") := by
  constructor
  · rfl
  · decide

/-- C2: the claim fails on the code — the sync `completion_with_retry` never
applies the retry decorator, so with `max_retries = 3` a transport
connection error on the first attempt followed by a success is a terminal
failure on the sync path while the async path retries and succeeds. -/
theorem sync_path_performs_single_attempt :
    completion_with_retry
      { model_name := "m", full_model_name := none, model_family := none,
        location := "l", project := "p", max_retries := 3 } Val.str
      (fun i => if i = 0 then TransportResult.conn_error
        else TransportResult.response
          { status_code := 200, url := "https://u", body := "ok" }) =
      Except.error CallError.request
    ∧ acompletion_with_retry
      { model_name := "m", full_model_name := none, model_family := none,
        location := "l", project := "p", max_retries := 3 } Val.str
      (fun i => if i = 0 then TransportResult.conn_error
        else TransportResult.response
          { status_code := 200, url := "https://u", body := "ok" }) =
      Except.ok (Val.str "ok") := by
  constructor
  · decide
  · decide

end MaasBase
